import Mathlib

/-!
Verification development for the BiconomySmartAccountV2 user-operation builder
(src/src/modules/rpc/aa/smart-accounts/biconomy-smart-account-v2.ts).

The class is embedded shallowly: every network round-trip and every external
library (ethers gas estimation, the factory view call, viem ABI encoding, the
account-abstraction SDK pre-verification-gas formula, the fee-market source)
is a field of an `Env` record; the mutable instance fields (the memoized
account address, the lazily created contract handle) form a `State` record
that every method threads explicitly and each method also reports the list of
network calls it performed.  A JavaScript value that may be an unawaited
Promise is modelled by `AsyncVal`.
-/

namespace BiconomySmartAccountV2

/-- A JavaScript value that is either a plain value or a still-pending Promise
that will resolve to the given value (the source assigns unawaited promises
into some record fields). -/
inductive AsyncVal (α : Type) where
  | val : α → AsyncVal α
  | promise : α → AsyncVal α
deriving DecidableEq, Repr

/-- Awaiting a promise (what ethers resolveProperties does to a field). -/
def AsyncVal.resolve {α : Type} : AsyncVal α → α
  | .val a => a
  | .promise a => a

/-- Caller-supplied intent, interface TransactionDetailsForUserOp of the source.
Hex quantities are modelled as natural numbers; optional fields are `Option`
(`none` models a JavaScript null/undefined, which is what `??` tests). -/
structure TransactionDetailsForUserOp where
  gasLimit : Option Nat
  value : Option Nat
  /-- The field is named `to` in the source; `to` is reserved in Lean. -/
  toAddress : String
  data : String
  nonce : Option Nat
deriving DecidableEq, Repr

/-- The record `partialUserOp` assembled at lines 69-79 of the source.  The
sender field is written as `this.getAccountAddress()` without `await`, so it
holds a Promise: its type here is `AsyncVal String`. -/
structure DraftUserOp where
  sender : AsyncVal String
  nonce : Nat
  initCode : String
  callData : String
  callGasLimit : String
  verificationGasLimit : Nat
  maxFeePerGas : Option Nat
  maxPriorityFeePerGas : Option Nat
  paymasterAndData : String
deriving DecidableEq, Repr

/-- The draft record after ethers `resolveProperties` has awaited every
promise-valued field (used by getPreVerificationGas, line 161). -/
structure ResolvedUserOp where
  sender : String
  nonce : Nat
  initCode : String
  callData : String
  callGasLimit : String
  verificationGasLimit : Nat
  maxFeePerGas : Option Nat
  maxPriorityFeePerGas : Option Nat
  paymasterAndData : String
deriving DecidableEq, Repr

/-- Model of ethers `resolveProperties` (awaits each field of the record). -/
def resolveProps (p : DraftUserOp) : ResolvedUserOp :=
  { sender := p.sender.resolve
    nonce := p.nonce
    initCode := p.initCode
    callData := p.callData
    callGasLimit := p.callGasLimit
    verificationGasLimit := p.verificationGasLimit
    maxFeePerGas := p.maxFeePerGas
    maxPriorityFeePerGas := p.maxPriorityFeePerGas
    paymasterAndData := p.paymasterAndData }

/-- The record returned by createUnsignedUserOp (lines 84-88): the draft plus
a preVerificationGas field, assigned the unawaited promise of
`this.getPreVerificationGas(partialUserOp)`, and the placeholder signature. -/
structure UserOp extends DraftUserOp where
  preVerificationGas : AsyncVal Nat
  signature : String
deriving DecidableEq, Repr

/-- The external world: provider, factory view call, ABI encoders (viem and
the ethers contract encoder), fee-market source and the account-abstraction
SDK formula.  All are out-of-scope collaborators per the spec, modelled as
total functions. -/
structure Env where
  /-- Factory view call getAddressForCounterFactualAccount(module, setupData, index). -/
  getAddressForCounterFactualAccount : String → String → Nat → String
  /-- provider.getCode(address), a hex string ("0x" when no code). -/
  getCode : String → String
  /-- accountContract.nonce() read at the contract handle address. -/
  nonceAt : String → Nat
  /-- provider.estimateGas over (optional from-address, to-address, data). -/
  estimateGas : Option String → String → String → Nat
  /-- provider.getNetwork().chainId. -/
  chainId : Nat
  /-- Modelled from the spec: getFeeDataFromParticle lives in ../utils which is
  not under src/; section 6 of the spec gives its interface as
  getFeeData(chainId) producing maxFeePerGas and maxPriorityFeePerGas. -/
  maxFeePerGas : Option Nat
  maxPriorityFeePerGas : Option Nat
  /-- ethers contract encoder for execute_ncC(to, valueHex, data) (line 127). -/
  encodeExecuteData : String → String → String → String
  /-- viem encodeFunctionData for deployCounterFactualAccount(module, setupData, index). -/
  encodeDeployCounterFactualAccount : String → String → Nat → String
  /-- calcPreVerificationGas from the external account-abstraction SDK. -/
  calcPreVerificationGas : ResolvedUserOp → Nat

/-- Constructor arguments retained by the instance (lines 22-28). -/
structure Config where
  ownerAddress : String
  factoryAddress : String
  entryPointAddress : String
  ecdsaModule : String
deriving DecidableEq, Repr

/-- Mutable instance fields: `accountAddress` ("" models the undefined initial
value, matching the truthiness test at line 31) and `smartAccountContract`
(`some a` is a contract handle created at address `a`; a handle object is
always truthy, so `Option` models the test at line 183). -/
structure State where
  accountAddress : String
  contractCache : Option String
deriving DecidableEq, Repr

/-- A fresh instance right after the constructor ran. -/
def State.fresh : State := { accountAddress := "", contractCache := none }

/-- One network round-trip, recorded so that theorems can state that a call
path performed no recomputation. -/
inductive NetCall where
  | factoryGetAddress (moduleAddr setupData : String) (index : Nat)
  | codeLookup (addr : String)
  | gasEstimate (fromAddr : Option String) (toAddr callData : String)
  | networkLookup
  | feeLookup (chainId : Nat)
  | nonceRead (addr : String)
deriving DecidableEq, Repr

/-- Modelled from the spec: the repository module common/bignumber is not under
src/; section 9 of the spec describes the numeric values as arbitrary-precision
unsigned integers with explicit hex-string conversion at the ledger boundary.
`toHexString` renders a number as 0x-prefixed hexadecimal. -/
def toHexString (n : Nat) : String :=
  "0x" ++ (Nat.toDigits 16 n).asString

/-- moduleSetupData (line 34): the fixed selector plus padding concatenated
with owner.address.slice(2, 42). -/
def moduleSetupData (cfg : Config) : String :=
  "0x2ede3bc0000000000000000000000000" ++ ((cfg.ownerAddress.drop 2).take 40)

/-- getAccountAddress (lines 30-39): return the memoized address when truthy,
otherwise perform the factory view call and cache its result. -/
def getAccountAddress (env : Env) (cfg : Config) (s : State) :
    String × State × List NetCall :=
  if s.accountAddress ≠ "" then
    (s.accountAddress, s, [])
  else
    let a := env.getAddressForCounterFactualAccount cfg.ecdsaModule (moduleSetupData cfg) 0
    (a, { s with accountAddress := a },
      [.factoryGetAddress cfg.ecdsaModule (moduleSetupData cfg) 0])

/-- getAccountContract (lines 182-191): reuse the cached handle, else resolve
the address and create (cache) a handle at it. -/
def getAccountContract (env : Env) (cfg : Config) (s : State) :
    String × State × List NetCall :=
  match s.contractCache with
  | some addr => (addr, s, [])
  | none =>
    let r := getAccountAddress env cfg s
    (r.1, { r.2.1 with contractCache := some r.1 }, r.2.2)

/-- isAccountDeploied (lines 176-180): the resolved address has code of hex
length greater than 2 (longer than the bare "0x"). -/
def isAccountDeploied (env : Env) (cfg : Config) (s : State) :
    Bool × State × List NetCall :=
  let r := getAccountAddress env cfg s
  (decide ((env.getCode r.1).length > 2), r.2.1, r.2.2 ++ [.codeLookup r.1])

/-- getNonce (lines 166-174): zero when undeployed, else the on-chain nonce
counter read through the account contract handle. -/
def getNonce (env : Env) (cfg : Config) (s : State) :
    Nat × State × List NetCall :=
  let d := isAccountDeploied env cfg s
  if d.1 then
    let c := getAccountContract env cfg d.2.1
    (env.nonceAt c.1, c.2.1, d.2.2 ++ c.2.2 ++ [.nonceRead c.1])
  else
    (0, d.2.1, d.2.2)

/-- encodeExecute (lines 125-128): obtain the account contract handle, then
encode execute_ncC(to, value, data) with the ethers ABI encoder. -/
def encodeExecute (env : Env) (cfg : Config) (s : State)
    (toAddr valueHex data : String) : String × State × List NetCall :=
  let c := getAccountContract env cfg s
  (env.encodeExecuteData toAddr valueHex data, c.2.1, c.2.2)

/-- encodeUserOpCallDataAndGasLimit (lines 91-110): encode the execute call;
use the caller-supplied gas limit verbatim when nonzero, otherwise estimate
gas for the encoded call issued from the EntryPoint address against the
account address (the provider resolves the unawaited address promise of line
100 before issuing the RPC). -/
def encodeUserOpCallDataAndGasLimit (env : Env) (cfg : Config) (s : State)
    (info : TransactionDetailsForUserOp) :
    (String × String) × State × List NetCall :=
  let valueHex := toHexString (info.value.getD 0)
  let e := encodeExecute env cfg s info.toAddress valueHex info.data
  let callData := e.1
  let g := info.gasLimit.getD 0
  if g = 0 then
    let r := getAccountAddress env cfg e.2.1
    let est := env.estimateGas (some cfg.entryPointAddress) r.1 callData
    ((callData, toHexString est), r.2.1,
      e.2.2 ++ r.2.2 ++ [.gasEstimate (some cfg.entryPointAddress) r.1 callData])
  else
    ((callData, toHexString g), e.2.1, e.2.2)

/-- viem concat (line 131): join hex strings, keeping a single 0x prefix. -/
def hexConcat (parts : List String) : String :=
  "0x" ++ String.join (parts.map (fun p => p.drop 2))

/-- createInitCode (lines 130-154): concatenation of the hardcoded factory
address literal with the viem encoding of deployCounterFactualAccount over the
module address, the module setup data, and the literal index 0n — the `index`
parameter of the method is not used in the encoded arguments. -/
def createInitCode (env : Env) (cfg : Config) (index : Nat) : String :=
  hexConcat
    ["0x000000a56Aaca3e9a4C479ea6b6CD0DbcB6634F5",
      env.encodeDeployCounterFactualAccount cfg.ecdsaModule
        ("0x2ede3bc0000000000000000000000000" ++ ((cfg.ownerAddress.drop 2).take 40)) 0]

/-- estimateCreationGas (lines 112-123): zero for an absent or empty
init-code, otherwise estimate gas for a call to the first 20 bytes (42 hex
characters) with the remaining bytes as data. -/
def estimateCreationGas (env : Env) (initCode : String) : Nat × List NetCall :=
  if initCode = "" ∨ initCode = "0x" then
    (0, [])
  else
    let deployerAddress := initCode.take 42
    let deployerCallData := "0x" ++ initCode.drop 42
    (env.estimateGas none deployerAddress deployerCallData,
      [.gasEstimate none deployerAddress deployerCallData])

/-- getVerificationGasLimit (lines 156-158). -/
def getVerificationGasLimit : Nat := 1500000

/-- getPreVerificationGas (lines 160-164): resolve the record fields, then
apply the external SDK formula. -/
def getPreVerificationGas (env : Env) (p : DraftUserOp) : Nat :=
  env.calcPreVerificationGas (resolveProps p)

/-- Failures of createUnsignedUserOp: the explicit batch rejection thrown at
line 43, and the TypeError raised when the build proceeds on an empty input
list and dereferences the missing first element (infos[0] is undefined and
line 92 reads a property of it). -/
inductive BuildError where
  | batchNotSupported
  | undefinedFirstElement
deriving DecidableEq, Repr

/-- createUnsignedUserOp (lines 41-89).  The second parameter of the source is
immediately overwritten at line 51 and therefore never read; it is kept here
(unused) for fidelity.  The returned triple is the result (the thrown error or
the built record), the final instance state, and the network calls made. -/
def createUnsignedUserOp (env : Env) (cfg : Config) (s : State)
    (infos : List TransactionDetailsForUserOp) (nonceArg : Option Nat) :
    Except BuildError UserOp × State × List NetCall :=
  if infos.length > 1 then
    (.error .batchNotSupported, s, [])
  else
    match infos.head? with
    | none => (.error .undefinedFirstElement, s, [])
    | some info =>
      let e := encodeUserOpCallDataAndGasLimit env cfg s info
      let callData := e.1.1
      let callGasLimit := e.1.2
      let n :=
        match info.nonce with
        | some v => (v, e.2.1, ([] : List NetCall))
        | none => getNonce env cfg e.2.1
      let nonce := n.1
      let initCode := if nonce = 0 then createInitCode env cfg 0 else "0x"
      let ig := estimateCreationGas env initCode
      let verificationGasLimit := getVerificationGasLimit + ig.1
      let feeCalls : List NetCall := [.networkLookup, .feeLookup env.chainId]
      let a := getAccountAddress env cfg n.2.1
      let draft : DraftUserOp :=
        { sender := .promise a.1
          nonce := nonce
          initCode := initCode
          callData := callData
          callGasLimit := callGasLimit
          verificationGasLimit := verificationGasLimit
          maxFeePerGas := env.maxFeePerGas
          maxPriorityFeePerGas := env.maxPriorityFeePerGas
          paymasterAndData := "0x" }
      (.ok
        { draft with
          preVerificationGas := .promise (getPreVerificationGas env draft)
          signature := "0x" },
        a.2.1,
        e.2.2 ++ n.2.2 ++ ig.2 ++ feeCalls ++ a.2.2)

/-- The value of the factory view call for this instance: the counterfactual
account address the factory reports for (module, moduleSetupData, 0). -/
def factoryAddressValue (env : Env) (cfg : Config) : String :=
  env.getAddressForCounterFactualAccount cfg.ecdsaModule (moduleSetupData cfg) 0

/-- States reachable on an instance: the memoized address is either unset or
the factory value, and the contract handle is either absent or created at the
factory value.  A fresh instance satisfies this and every method preserves
it. -/
def WFState (env : Env) (cfg : Config) (s : State) : Prop :=
  (s.accountAddress = "" ∨ s.accountAddress = factoryAddressValue env cfg) ∧
  (s.contractCache = none ∨ s.contractCache = some (factoryAddressValue env cfg))

instance (env : Env) (cfg : Config) (s : State) : Decidable (WFState env cfg s) := by
  unfold WFState
  exact inferInstance

/-- The public operations of the class that can touch instance state, used to
speak about arbitrary interleavings between two getAccountAddress calls.
signUserOpHash and getUserOpHash never read or write instance state. -/
inductive AccountOp where
  | opGetAccountAddress
  | opGetAccountContract
  | opIsAccountDeploied
  | opGetNonce
  | opEstimateCreationGas (initCode : String)
  | opCreateInitCode (index : Nat)
  | opEncodeUserOpCallDataAndGasLimit (info : TransactionDetailsForUserOp)
  | opCreateUnsignedUserOp (infos : List TransactionDetailsForUserOp) (nonceArg : Option Nat)
  | opSignUserOpHash
  | opGetUserOpHash

/-- The effect of one public operation on the instance state. -/
def runOp (env : Env) (cfg : Config) (op : AccountOp) (s : State) : State :=
  match op with
  | .opGetAccountAddress => (getAccountAddress env cfg s).2.1
  | .opGetAccountContract => (getAccountContract env cfg s).2.1
  | .opIsAccountDeploied => (isAccountDeploied env cfg s).2.1
  | .opGetNonce => (getNonce env cfg s).2.1
  | .opEstimateCreationGas _ => s
  | .opCreateInitCode _ => s
  | .opEncodeUserOpCallDataAndGasLimit info =>
      (encodeUserOpCallDataAndGasLimit env cfg s info).2.1
  | .opCreateUnsignedUserOp infos nonceArg =>
      (createUnsignedUserOp env cfg s infos nonceArg).2.1
  | .opSignUserOpHash => s
  | .opGetUserOpHash => s

/-- Run a sequence of interleaved operations. -/
def runOps (env : Env) (cfg : Config) (ops : List AccountOp) (s : State) : State :=
  ops.foldl (fun t op => runOp env cfg op t) s

/-- What the spec text of section 4.3 claims createInitCode produces: the
concatenation of the construction-supplied factory address with the encoding
of the deploy call carrying the module address, the module setup data, and the
supplied index. -/
def createInitCodeClaimed (env : Env) (cfg : Config) (index : Nat) : String :=
  hexConcat
    [cfg.factoryAddress,
      env.encodeDeployCounterFactualAccount cfg.ecdsaModule (moduleSetupData cfg) index]

/-- A concrete environment used for witnesses and counterexamples.  The
external collaborators are instantiated with small injective stand-ins. -/
def sampleEnv : Env :=
  { getAddressForCounterFactualAccount := fun m sd i =>
      "0xACC0" ++ m.drop 2 ++ sd.drop 2 ++ (Nat.toDigits 16 i).asString
    getCode := fun _ => "0x"
    nonceAt := fun _ => 3
    estimateGas := fun fromAddr _ _ =>
      match fromAddr with
      | some _ => 21000
      | none => 90000
    chainId := 1
    maxFeePerGas := some 120
    maxPriorityFeePerGas := some 2
    encodeExecuteData := fun t v d => "0xEE" ++ t.drop 2 ++ v.drop 2 ++ d.drop 2
    encodeDeployCounterFactualAccount := fun m sd i =>
      "0xDC" ++ m.drop 2 ++ sd.drop 2 ++ (Nat.toDigits 16 i).asString
    calcPreVerificationGas := fun _ => 44196 }

/-- A concrete environment whose ledger reports non-empty code (a deployed
account) at every address. -/
def sampleEnvDeployed : Env :=
  { sampleEnv with getCode := fun _ => "0x6080" }

/-- Concrete constructor arguments. -/
def sampleCfg : Config :=
  { ownerAddress := "0xAAAA"
    factoryAddress := "0x1111111111111111111111111111111111111111"
    entryPointAddress := "0x5FF1"
    ecdsaModule := "0x9921" }

/-- A concrete caller intent with no explicit gas limit and no explicit
nonce. -/
def sampleInfo : TransactionDetailsForUserOp :=
  { gasLimit := none
    value := none
    toAddress := "0xBBBB"
    data := "0x"
    nonce := none }

/-- A concrete caller intent with an explicit nonzero nonce. -/
def sampleInfoNonce1 : TransactionDetailsForUserOp :=
  { sampleInfo with nonce := some 1 }

/-- A concrete caller intent with an explicit nonzero gas limit. -/
def sampleInfoGas : TransactionDetailsForUserOp :=
  { sampleInfo with gasLimit := some 777 }

/-- Closed form of the draft record a single-transaction build assembles,
expressed purely in terms of the environment, the constructor arguments and
the caller intent (derived below as `createUnsignedUserOp_single`). -/
def buildDraft (env : Env) (cfg : Config) (info : TransactionDetailsForUserOp) :
    DraftUserOp :=
  let fv := factoryAddressValue env cfg
  let callData :=
    env.encodeExecuteData info.toAddress (toHexString (info.value.getD 0)) info.data
  let callGasLimit :=
    if info.gasLimit.getD 0 = 0 then
      toHexString (env.estimateGas (some cfg.entryPointAddress) fv callData)
    else
      toHexString (info.gasLimit.getD 0)
  let nonce :=
    match info.nonce with
    | some v => v
    | none => if (env.getCode fv).length > 2 then env.nonceAt fv else 0
  let initCode := if nonce = 0 then createInitCode env cfg 0 else "0x"
  { sender := .promise fv
    nonce := nonce
    initCode := initCode
    callData := callData
    callGasLimit := callGasLimit
    verificationGasLimit := getVerificationGasLimit + (estimateCreationGas env initCode).1
    maxFeePerGas := env.maxFeePerGas
    maxPriorityFeePerGas := env.maxPriorityFeePerGas
    paymasterAndData := "0x" }

/-- Closed form of the operation a single-transaction build returns. -/
def buildResultOp (env : Env) (cfg : Config) (info : TransactionDetailsForUserOp) :
    UserOp :=
  { buildDraft env cfg info with
    preVerificationGas := .promise (getPreVerificationGas env (buildDraft env cfg info))
    signature := "0x" }

/-- The operation built by sampleEnv from a fresh state on sampleInfoGas
(caller supplies an explicit gas limit of 777 = 0x309). -/
def sampleOpGas : UserOp :=
  { sender := .promise "0xACC099212ede3bc0000000000000000000000000AAAA0"
    nonce := 0
    initCode := "0x000000a56Aaca3e9a4C479ea6b6CD0DbcB6634F5DC99212ede3bc0000000000000000000000000AAAA0"
    callData := "0xEEBBBB0"
    callGasLimit := "0x309"
    verificationGasLimit := 1590000
    maxFeePerGas := some 120
    maxPriorityFeePerGas := some 2
    paymasterAndData := "0x"
    preVerificationGas := .promise 44196
    signature := "0x" }

/-- The operation built by sampleEnv (undeployed ledger) from a fresh state on
sampleInfo. -/
def sampleOpFresh : UserOp :=
  { sender := .promise "0xACC099212ede3bc0000000000000000000000000AAAA0"
    nonce := 0
    initCode := "0x000000a56Aaca3e9a4C479ea6b6CD0DbcB6634F5DC99212ede3bc0000000000000000000000000AAAA0"
    callData := "0xEEBBBB0"
    callGasLimit := "0x5208"
    verificationGasLimit := 1590000
    maxFeePerGas := some 120
    maxPriorityFeePerGas := some 2
    paymasterAndData := "0x"
    preVerificationGas := .promise 44196
    signature := "0x" }

/-- The operation built by sampleEnvDeployed (account deployed, on-chain nonce
3) from a fresh state on sampleInfo. -/
def sampleOpDeployed : UserOp :=
  { sampleOpFresh with
    nonce := 3
    initCode := "0x"
    verificationGasLimit := 1500000 }

/-- The operation built by sampleEnv from a fresh state on sampleInfoNonce1
(caller forces nonce 1 while the account is undeployed). -/
def sampleOpNonce1 : UserOp :=
  { sampleOpFresh with
    nonce := 1
    initCode := "0x"
    verificationGasLimit := 1500000 }

theorem wf_fresh (env : Env) (cfg : Config) : WFState env cfg State.fresh :=
  ⟨Or.inl rfl, Or.inl rfl⟩

theorem getAccountAddress_fst (env : Env) (cfg : Config) (s : State)
    (h : WFState env cfg s) :
    (getAccountAddress env cfg s).1 = factoryAddressValue env cfg := by
  rcases h with ⟨h1 | h1, -⟩
  · simp [getAccountAddress, h1, factoryAddressValue]
  · by_cases he : s.accountAddress = ""
    · simp [getAccountAddress, he, factoryAddressValue]
    · unfold getAccountAddress
      rw [if_pos he]
      exact h1

theorem getAccountAddress_state (env : Env) (cfg : Config) (s : State)
    (h : WFState env cfg s) :
    (getAccountAddress env cfg s).2.1 =
      { accountAddress := factoryAddressValue env cfg
        contractCache := s.contractCache } := by
  rcases h with ⟨h1 | h1, -⟩
  · simp [getAccountAddress, h1, factoryAddressValue]
  · by_cases he : s.accountAddress = ""
    · simp [getAccountAddress, he, factoryAddressValue]
    · simp [getAccountAddress, he, ← h1]

theorem wf_getAccountAddress (env : Env) (cfg : Config) (s : State)
    (h : WFState env cfg s) :
    WFState env cfg (getAccountAddress env cfg s).2.1 := by
  rw [getAccountAddress_state env cfg s h]
  exact ⟨Or.inr rfl, h.2⟩

theorem getAccountContract_fst (env : Env) (cfg : Config) (s : State)
    (h : WFState env cfg s) :
    (getAccountContract env cfg s).1 = factoryAddressValue env cfg := by
  rcases hc : s.contractCache with _ | a
  · simp [getAccountContract, hc, getAccountAddress_fst env cfg s h]
  · rcases h.2 with h2 | h2
    · rw [hc] at h2
      exact absurd h2 (by simp)
    · rw [hc] at h2
      injection h2 with ha
      simp [getAccountContract, hc, ha]

theorem wf_getAccountContract (env : Env) (cfg : Config) (s : State)
    (h : WFState env cfg s) :
    WFState env cfg (getAccountContract env cfg s).2.1 := by
  rcases hc : s.contractCache with _ | a
  · have hs := getAccountAddress_state env cfg s h
    have hf := getAccountAddress_fst env cfg s h
    simp [getAccountContract, hc, hs, hf]
    exact ⟨Or.inr rfl, Or.inr rfl⟩
  · simpa [getAccountContract, hc] using h

theorem isAccountDeploied_fst (env : Env) (cfg : Config) (s : State)
    (h : WFState env cfg s) :
    (isAccountDeploied env cfg s).1 =
      decide ((env.getCode (factoryAddressValue env cfg)).length > 2) := by
  simp [isAccountDeploied, getAccountAddress_fst env cfg s h]

theorem wf_isAccountDeploied (env : Env) (cfg : Config) (s : State)
    (h : WFState env cfg s) :
    WFState env cfg (isAccountDeploied env cfg s).2.1 := by
  simpa [isAccountDeploied] using wf_getAccountAddress env cfg s h

theorem getNonce_fst (env : Env) (cfg : Config) (s : State)
    (h : WFState env cfg s) :
    (getNonce env cfg s).1 =
      if (env.getCode (factoryAddressValue env cfg)).length > 2 then
        env.nonceAt (factoryAddressValue env cfg)
      else 0 := by
  have hd := isAccountDeploied_fst env cfg s h
  have hw := wf_isAccountDeploied env cfg s h
  by_cases hl : (env.getCode (factoryAddressValue env cfg)).length > 2
  · simp [getNonce, hd, hl, getAccountContract_fst env cfg _ hw]
  · simp [getNonce, hd, hl]

theorem wf_getNonce (env : Env) (cfg : Config) (s : State)
    (h : WFState env cfg s) :
    WFState env cfg (getNonce env cfg s).2.1 := by
  have hw := wf_isAccountDeploied env cfg s h
  by_cases hb : (isAccountDeploied env cfg s).1
  · simpa [getNonce, hb] using wf_getAccountContract env cfg _ hw
  · simpa [getNonce, hb] using hw

theorem encodeUserOpCallDataAndGasLimit_fst (env : Env) (cfg : Config) (s : State)
    (info : TransactionDetailsForUserOp) (h : WFState env cfg s) :
    (encodeUserOpCallDataAndGasLimit env cfg s info).1 =
      (env.encodeExecuteData info.toAddress (toHexString (info.value.getD 0)) info.data,
        if info.gasLimit.getD 0 = 0 then
          toHexString (env.estimateGas (some cfg.entryPointAddress)
            (factoryAddressValue env cfg)
            (env.encodeExecuteData info.toAddress (toHexString (info.value.getD 0)) info.data))
        else
          toHexString (info.gasLimit.getD 0)) := by
  have hw : WFState env cfg (encodeExecute env cfg s info.toAddress
      (toHexString (info.value.getD 0)) info.data).2.1 := by
    simpa [encodeExecute] using wf_getAccountContract env cfg s h
  by_cases hg : info.gasLimit.getD 0 = 0
  · simp [encodeUserOpCallDataAndGasLimit, hg, encodeExecute,
      getAccountAddress_fst env cfg _ (by simpa [encodeExecute] using hw)]
  · simp [encodeUserOpCallDataAndGasLimit, hg, encodeExecute]

theorem wf_encodeUserOpCallDataAndGasLimit (env : Env) (cfg : Config) (s : State)
    (info : TransactionDetailsForUserOp) (h : WFState env cfg s) :
    WFState env cfg (encodeUserOpCallDataAndGasLimit env cfg s info).2.1 := by
  have hw : WFState env cfg (encodeExecute env cfg s info.toAddress
      (toHexString (info.value.getD 0)) info.data).2.1 := by
    simpa [encodeExecute] using wf_getAccountContract env cfg s h
  by_cases hg : info.gasLimit.getD 0 = 0
  · simpa [encodeUserOpCallDataAndGasLimit, hg] using
      wf_getAccountAddress env cfg _ hw
  · simpa [encodeUserOpCallDataAndGasLimit, hg] using hw

theorem createUnsignedUserOp_single (env : Env) (cfg : Config) (s : State)
    (info : TransactionDetailsForUserOp) (na : Option Nat)
    (h : WFState env cfg s) :
    (createUnsignedUserOp env cfg s [info] na).1 =
      .ok (buildResultOp env cfg info) := by
  have he := encodeUserOpCallDataAndGasLimit_fst env cfg s info h
  have hw1 := wf_encodeUserOpCallDataAndGasLimit env cfg s info h
  rcases hn : info.nonce with _ | v
  · have hnf := getNonce_fst env cfg _ hw1
    have hw2 := wf_getNonce env cfg _ hw1
    have haf := getAccountAddress_fst env cfg _ hw2
    simp [createUnsignedUserOp, hn, he, hnf, haf, buildResultOp, buildDraft]
  · have haf := getAccountAddress_fst env cfg _ hw1
    simp [createUnsignedUserOp, hn, he, haf, buildResultOp, buildDraft]

theorem createInitCode_ne_empty (env : Env) (cfg : Config) (index : Nat) :
    createInitCode env cfg index ≠ "0x" := by
  intro hcontra
  have hl := congrArg String.length hcontra
  have h40 : ("0x000000a56Aaca3e9a4C479ea6b6CD0DbcB6634F5".drop 2).length = 40 := by decide
  have h2 : ("0x" : String).length = 2 := by decide
  simp only [createInitCode, hexConcat, List.map, String.join, List.foldl,
    String.length_append, h40, h2] at hl
  omega

theorem estimateCreationGas_fst (env : Env) (ic : String) :
    (estimateCreationGas env ic).1 =
      if ic = "" ∨ ic = "0x" then 0
      else env.estimateGas none (ic.take 42) ("0x" ++ ic.drop 42) := by
  by_cases h : ic = "" ∨ ic = "0x" <;> simp [estimateCreationGas, h]

theorem buildResultOp_nonce (env : Env) (cfg : Config)
    (info : TransactionDetailsForUserOp) :
    (buildResultOp env cfg info).nonce =
      info.nonce.getD
        (if (env.getCode (factoryAddressValue env cfg)).length > 2 then
          env.nonceAt (factoryAddressValue env cfg)
        else 0) := by
  rcases hn : info.nonce with _ | v <;> simp [buildResultOp, buildDraft, hn]

theorem buildResultOp_initCode (env : Env) (cfg : Config)
    (info : TransactionDetailsForUserOp) :
    (buildResultOp env cfg info).initCode =
      if (buildResultOp env cfg info).nonce = 0 then createInitCode env cfg 0
      else "0x" :=
  rfl

theorem getAccountAddress_of_cached (env : Env) (cfg : Config) (s : State)
    (h : s.accountAddress ≠ "") :
    getAccountAddress env cfg s = (s.accountAddress, s, []) := by
  unfold getAccountAddress
  rw [if_pos h]

theorem getAccountAddress_caches (env : Env) (cfg : Config) (s : State) :
    (getAccountAddress env cfg s).2.1.accountAddress = (getAccountAddress env cfg s).1 := by
  by_cases h : s.accountAddress = "" <;> simp [getAccountAddress, h]

theorem getAccountAddress_state_pres (env : Env) (cfg : Config) (s : State)
    (h : s.accountAddress ≠ "") :
    (getAccountAddress env cfg s).2.1 = s := by
  rw [getAccountAddress_of_cached env cfg s h]

theorem getAccountContract_addr_pres (env : Env) (cfg : Config) (s : State)
    (h : s.accountAddress ≠ "") :
    (getAccountContract env cfg s).2.1.accountAddress = s.accountAddress := by
  rcases hc : s.contractCache with _ | a <;>
    simp [getAccountContract, hc, getAccountAddress_state_pres env cfg s h]

theorem isAccountDeploied_addr_pres (env : Env) (cfg : Config) (s : State)
    (h : s.accountAddress ≠ "") :
    (isAccountDeploied env cfg s).2.1.accountAddress = s.accountAddress := by
  simp [isAccountDeploied, getAccountAddress_state_pres env cfg s h]

theorem getNonce_addr_pres (env : Env) (cfg : Config) (s : State)
    (h : s.accountAddress ≠ "") :
    (getNonce env cfg s).2.1.accountAddress = s.accountAddress := by
  have h1 := isAccountDeploied_addr_pres env cfg s h
  have h2 : (isAccountDeploied env cfg s).2.1.accountAddress ≠ "" := by
    rw [h1]; exact h
  by_cases hb : (isAccountDeploied env cfg s).1 <;>
    simp [getNonce, hb, getAccountContract_addr_pres env cfg _ h2, h1]

theorem encodeUserOpCallDataAndGasLimit_addr_pres (env : Env) (cfg : Config)
    (s : State) (info : TransactionDetailsForUserOp)
    (h : s.accountAddress ≠ "") :
    (encodeUserOpCallDataAndGasLimit env cfg s info).2.1.accountAddress =
      s.accountAddress := by
  have h1 : (encodeExecute env cfg s info.toAddress
      (toHexString (info.value.getD 0)) info.data).2.1.accountAddress =
        s.accountAddress := by
    simp [encodeExecute, getAccountContract_addr_pres env cfg s h]
  have h2 : (encodeExecute env cfg s info.toAddress
      (toHexString (info.value.getD 0)) info.data).2.1.accountAddress ≠ "" := by
    rw [h1]; exact h
  by_cases hg : info.gasLimit.getD 0 = 0 <;>
    simp [encodeUserOpCallDataAndGasLimit, hg, h1,
      getAccountAddress_state_pres env cfg _ h2]

theorem createUnsignedUserOp_addr_pres (env : Env) (cfg : Config) (s : State)
    (infos : List TransactionDetailsForUserOp) (na : Option Nat)
    (h : s.accountAddress ≠ "") :
    (createUnsignedUserOp env cfg s infos na).2.1.accountAddress =
      s.accountAddress := by
  by_cases hl : infos.length > 1
  · simp [createUnsignedUserOp, hl]
  · rcases hh : infos.head? with _ | info
    · simp [createUnsignedUserOp, hl, hh]
    · have h1 := encodeUserOpCallDataAndGasLimit_addr_pres env cfg s info h
      have h2 : (encodeUserOpCallDataAndGasLimit env cfg s info).2.1.accountAddress ≠ "" := by
        rw [h1]; exact h
      rcases hn : info.nonce with _ | v
      · have h3 := getNonce_addr_pres env cfg _ h2
        have h4 : (getNonce env cfg
            (encodeUserOpCallDataAndGasLimit env cfg s info).2.1).2.1.accountAddress ≠ "" := by
          rw [h3]; exact h2
        simp [createUnsignedUserOp, hl, hh, hn,
          getAccountAddress_state_pres env cfg _ h4, h3, h1]
      · simp [createUnsignedUserOp, hl, hh, hn,
          getAccountAddress_state_pres env cfg _ h2, h1]

theorem runOp_addr_pres (env : Env) (cfg : Config) (op : AccountOp) (s : State)
    (h : s.accountAddress ≠ "") :
    (runOp env cfg op s).accountAddress = s.accountAddress := by
  cases op with
  | opGetAccountAddress => simp [runOp, getAccountAddress_state_pres env cfg s h]
  | opGetAccountContract => simpa [runOp] using getAccountContract_addr_pres env cfg s h
  | opIsAccountDeploied => simpa [runOp] using isAccountDeploied_addr_pres env cfg s h
  | opGetNonce => simpa [runOp] using getNonce_addr_pres env cfg s h
  | opEstimateCreationGas ic => rfl
  | opCreateInitCode i => rfl
  | opEncodeUserOpCallDataAndGasLimit info =>
      simpa [runOp] using encodeUserOpCallDataAndGasLimit_addr_pres env cfg s info h
  | opCreateUnsignedUserOp infos na =>
      simpa [runOp] using createUnsignedUserOp_addr_pres env cfg s infos na h
  | opSignUserOpHash => rfl
  | opGetUserOpHash => rfl

theorem runOps_addr_pres (env : Env) (cfg : Config) (ops : List AccountOp)
    (s : State) (h : s.accountAddress ≠ "") :
    (runOps env cfg ops s).accountAddress = s.accountAddress := by
  induction ops generalizing s with
  | nil => rfl
  | cons op rest ih =>
    have h1 := runOp_addr_pres env cfg op s h
    have h2 : (runOp env cfg op s).accountAddress ≠ "" := by rw [h1]; exact h
    calc (runOps env cfg (op :: rest) s).accountAddress
        = (runOps env cfg rest (runOp env cfg op s)).accountAddress := rfl
      _ = (runOp env cfg op s).accountAddress := ih _ h2
      _ = s.accountAddress := h1

theorem createUnsignedUserOp_single_ne_error (env : Env) (cfg : Config)
    (s : State) (info : TransactionDetailsForUserOp) (na : Option Nat)
    (e : BuildError) :
    (createUnsignedUserOp env cfg s [info] na).1 ≠ .error e := by
  simp [createUnsignedUserOp]

/-- C1: For every build performed by createUnsignedUserOp, the init-code field
of the produced operation is non-empty exactly when the resolved nonce is
zero; for any nonzero nonce, caller-supplied or read on-chain, the init-code
is the empty byte-string "0x", even when the account is undeployed (the
environment, hence the deployment state, is arbitrary here). -/
theorem initCode_nonempty_iff_nonce_zero (env : Env) (cfg : Config) (s : State)
    (info : TransactionDetailsForUserOp) (na : Option Nat) (op : UserOp)
    (hwf : WFState env cfg s)
    (hok : (createUnsignedUserOp env cfg s [info] na).1 = .ok op) :
    op.initCode ≠ "0x" ↔ op.nonce = 0 := by
  rw [createUnsignedUserOp_single env cfg s info na hwf] at hok
  injection hok with hop
  subst hop
  rw [buildResultOp_initCode]
  by_cases hz : (buildResultOp env cfg info).nonce = 0
  · simp [hz, createInitCode_ne_empty env cfg 0]
  · simp [hz]

set_option maxRecDepth 8000 in
/-- Witness for C1: the concrete undeployed-account build, where nonce
resolves to zero and the init-code is non-empty. -/
theorem initCode_nonempty_iff_nonce_zero_witness :
    sampleOpFresh.initCode ≠ "0x" ↔ sampleOpFresh.nonce = 0 :=
  initCode_nonempty_iff_nonce_zero sampleEnv sampleCfg State.fresh sampleInfo none
    sampleOpFresh (by decide) (by rfl)

set_option maxRecDepth 8000 in
/-- C2 (the code violates the claim): on a concrete successful build the
preVerificationGas field of the returned record is the still-pending promise
of getPreVerificationGas applied to the assembled draft record, not the
resolved integer output of the calcPreVerificationGas formula: line 86 of the
source assigns `this.getPreVerificationGas(partialUserOp)` without `await`. -/
theorem preVerificationGas_unawaited :
    (createUnsignedUserOp sampleEnv sampleCfg State.fresh [sampleInfo] none).1.toOption =
        some sampleOpFresh ∧
      sampleOpFresh.preVerificationGas =
        AsyncVal.promise (getPreVerificationGas sampleEnv sampleOpFresh.toDraftUserOp) ∧
      sampleOpFresh.preVerificationGas ≠
        AsyncVal.val (getPreVerificationGas sampleEnv sampleOpFresh.toDraftUserOp) := by
  refine ⟨by rfl, by rfl, ?_⟩
  decide

set_option maxRecDepth 8000 in
/-- C3 counterexample: with a construction-supplied factory address different
from the hardcoded literal and index 1, createInitCode does not return the
concatenation of that factory address with the encoding carrying that index
(it uses the hardcoded address and index 0 instead). -/
theorem createInitCode_claim_cex :
    createInitCode sampleEnv sampleCfg 1 ≠ createInitCodeClaimed sampleEnv sampleCfg 1 := by
  decide

/-- C3 amended: createInitCode returns the concatenation of the hardcoded
factory address literal 0x000000a56Aaca3e9a4C479ea6b6CD0DbcB6634F5 with the
ABI encoding of deployCounterFactualAccount carrying the module address, the
module setup data, and the constant index 0; the result is independent of the
construction-supplied factory address and of the index argument. -/
theorem createInitCode_spec (env : Env) (cfg : Config) (index : Nat) :
    createInitCode env cfg index =
        hexConcat
          ["0x000000a56Aaca3e9a4C479ea6b6CD0DbcB6634F5",
            env.encodeDeployCounterFactualAccount cfg.ecdsaModule (moduleSetupData cfg) 0] ∧
      (∀ fa : String,
        createInitCode env { cfg with factoryAddress := fa } index =
          createInitCode env cfg index) ∧
      createInitCode env cfg index = createInitCode env cfg 0 :=
  ⟨rfl, fun _ => rfl, rfl⟩

/-- C4: In every successful single-transaction build, verificationGasLimit is
the baseline constant 1500000 plus the creation gas, where creation gas is
zero when the init-code is empty ("" or "0x") and otherwise is the estimator
result for a call to the first 20 bytes (42 hex characters) of the init-code
with the remaining bytes as data; with empty init-code it is exactly the
baseline. -/
theorem verificationGasLimit_spec (env : Env) (cfg : Config) (s : State)
    (info : TransactionDetailsForUserOp) (na : Option Nat) (op : UserOp)
    (hwf : WFState env cfg s)
    (hok : (createUnsignedUserOp env cfg s [info] na).1 = .ok op) :
    op.verificationGasLimit =
        1500000 +
          (if op.initCode = "" ∨ op.initCode = "0x" then 0
            else env.estimateGas none (op.initCode.take 42) ("0x" ++ op.initCode.drop 42)) ∧
      (op.initCode = "0x" → op.verificationGasLimit = 1500000) := by
  rw [createUnsignedUserOp_single env cfg s info na hwf] at hok
  injection hok with hop
  subst hop
  have h1 : (buildResultOp env cfg info).verificationGasLimit =
      getVerificationGasLimit +
        (estimateCreationGas env (buildResultOp env cfg info).initCode).1 := rfl
  refine ⟨?_, ?_⟩
  · rw [h1, estimateCreationGas_fst]
    rfl
  · intro hic
    rw [h1, estimateCreationGas_fst, hic]
    simp [getVerificationGasLimit]

set_option maxRecDepth 8000 in
/-- Witness for C4: the concrete deployed-account build, where the init-code
is empty and verificationGasLimit is exactly the baseline. -/
theorem verificationGasLimit_spec_witness :
    (sampleOpDeployed.verificationGasLimit =
        1500000 +
          (if sampleOpDeployed.initCode = "" ∨ sampleOpDeployed.initCode = "0x" then 0
            else sampleEnvDeployed.estimateGas none (sampleOpDeployed.initCode.take 42)
              ("0x" ++ sampleOpDeployed.initCode.drop 42)) ∧
      (sampleOpDeployed.initCode = "0x" →
        sampleOpDeployed.verificationGasLimit = 1500000)) :=
  verificationGasLimit_spec sampleEnvDeployed sampleCfg State.fresh sampleInfo none
    sampleOpDeployed (by decide) (by rfl)

/-- C5: In every successful single-transaction build, callGasLimit is the
caller-supplied gas limit (hex-rendered) when that value is nonzero, and
otherwise the estimator output for the encoded execute call issued from the
EntryPoint address against the resolved account address. -/
theorem callGasLimit_spec (env : Env) (cfg : Config) (s : State)
    (info : TransactionDetailsForUserOp) (na : Option Nat) (op : UserOp)
    (hwf : WFState env cfg s)
    (hok : (createUnsignedUserOp env cfg s [info] na).1 = .ok op) :
    op.callGasLimit =
      if info.gasLimit.getD 0 ≠ 0 then
        toHexString (info.gasLimit.getD 0)
      else
        toHexString (env.estimateGas (some cfg.entryPointAddress)
          (factoryAddressValue env cfg)
          (env.encodeExecuteData info.toAddress (toHexString (info.value.getD 0))
            info.data)) := by
  rw [createUnsignedUserOp_single env cfg s info na hwf] at hok
  injection hok with hop
  subst hop
  by_cases hg : info.gasLimit.getD 0 = 0 <;> simp [buildResultOp, buildDraft, hg]

set_option maxRecDepth 8000 in
/-- Witness for C5: the concrete build with an explicit caller gas limit of
777, used verbatim (0x309). -/
theorem callGasLimit_spec_witness :
    sampleOpGas.callGasLimit =
      if sampleInfoGas.gasLimit.getD 0 ≠ 0 then
        toHexString (sampleInfoGas.gasLimit.getD 0)
      else
        toHexString (sampleEnv.estimateGas (some sampleCfg.entryPointAddress)
          (factoryAddressValue sampleEnv sampleCfg)
          (sampleEnv.encodeExecuteData sampleInfoGas.toAddress
            (toHexString (sampleInfoGas.value.getD 0)) sampleInfoGas.data)) :=
  callGasLimit_spec sampleEnv sampleCfg State.fresh sampleInfoGas none sampleOpGas
    (by decide) (by rfl)

/-- C6: In every successful single-transaction build, the nonce equals the
caller-supplied nonce from the details when present; otherwise it is the
on-chain nonce counter of the resolved address when the code there is
non-empty (hex length above 2), and zero when the code is empty. -/
theorem nonce_spec (env : Env) (cfg : Config) (s : State)
    (info : TransactionDetailsForUserOp) (na : Option Nat) (op : UserOp)
    (hwf : WFState env cfg s)
    (hok : (createUnsignedUserOp env cfg s [info] na).1 = .ok op) :
    op.nonce =
      info.nonce.getD
        (if (env.getCode (factoryAddressValue env cfg)).length > 2 then
          env.nonceAt (factoryAddressValue env cfg)
        else 0) := by
  rw [createUnsignedUserOp_single env cfg s info na hwf] at hok
  injection hok with hop
  subst hop
  exact buildResultOp_nonce env cfg info

set_option maxRecDepth 8000 in
/-- Witness for C6: a caller-supplied nonce of 1 is used verbatim. -/
theorem nonce_spec_witness :
    sampleOpNonce1.nonce =
      sampleInfoNonce1.nonce.getD
        (if (sampleEnv.getCode (factoryAddressValue sampleEnv sampleCfg)).length > 2 then
          sampleEnv.nonceAt (factoryAddressValue sampleEnv sampleCfg)
        else 0) :=
  nonce_spec sampleEnv sampleCfg State.fresh sampleInfoNonce1 none sampleOpNonce1
    (by decide) (by rfl)

/-- C7: After the first successful (non-empty) resolution of the account
address, every later getAccountAddress call returns the identical cached
address, leaves the state unchanged, and performs no network call, no matter
which other operations of the class ran in between. -/
theorem getAccountAddress_idempotent (env : Env) (cfg : Config) (s : State)
    (ops : List AccountOp)
    (h : (getAccountAddress env cfg s).1 ≠ "") :
    getAccountAddress env cfg (runOps env cfg ops (getAccountAddress env cfg s).2.1) =
      ((getAccountAddress env cfg s).1,
        runOps env cfg ops (getAccountAddress env cfg s).2.1, []) := by
  have hc := getAccountAddress_caches env cfg s
  have hne : (getAccountAddress env cfg s).2.1.accountAddress ≠ "" := by
    rw [hc]; exact h
  have hp := runOps_addr_pres env cfg ops _ hne
  have hne2 : (runOps env cfg ops (getAccountAddress env cfg s).2.1).accountAddress ≠ "" := by
    rw [hp]; exact hne
  rw [getAccountAddress_of_cached env cfg _ hne2, hp, hc]

set_option maxRecDepth 8000 in
/-- Witness for C7: after resolving on a fresh instance and then interleaving
a nonce read and a whole build, getAccountAddress returns the same cached
address with no network call. -/
theorem getAccountAddress_idempotent_witness :
    getAccountAddress sampleEnv sampleCfg
        (runOps sampleEnv sampleCfg
          [AccountOp.opGetNonce, AccountOp.opCreateUnsignedUserOp [sampleInfo] none]
          (getAccountAddress sampleEnv sampleCfg State.fresh).2.1) =
      ((getAccountAddress sampleEnv sampleCfg State.fresh).1,
        runOps sampleEnv sampleCfg
          [AccountOp.opGetNonce, AccountOp.opCreateUnsignedUserOp [sampleInfo] none]
          (getAccountAddress sampleEnv sampleCfg State.fresh).2.1, []) :=
  getAccountAddress_idempotent sampleEnv sampleCfg State.fresh
    [AccountOp.opGetNonce, AccountOp.opCreateUnsignedUserOp [sampleInfo] none]
    (by decide)

/-- C8: Any input list with more than one element makes createUnsignedUserOp
fail with the batch-unsupported invalid-input error before any pipeline step:
no operation is produced, the instance state is untouched and no network call
is made. -/
theorem batch_rejected (env : Env) (cfg : Config) (s : State)
    (infos : List TransactionDetailsForUserOp) (na : Option Nat)
    (h : infos.length > 1) :
    createUnsignedUserOp env cfg s infos na =
      (.error .batchNotSupported, s, []) := by
  unfold createUnsignedUserOp
  rw [if_pos h]

/-- Witness for C8: a concrete batch of length 2 is rejected with no state
change and no network call. -/
theorem batch_rejected_witness :
    createUnsignedUserOp sampleEnv sampleCfg State.fresh [sampleInfo, sampleInfoGas] none =
      (.error .batchNotSupported, State.fresh, []) :=
  batch_rejected sampleEnv sampleCfg State.fresh [sampleInfo, sampleInfoGas] none
    (by decide)

set_option maxRecDepth 8000 in
/-- C9 counterexample: on a concrete successful build the sender field of the
returned record is not the resolved account address as a plain value — line
70 of the source assigns `this.getAccountAddress()` without `await`, so the
field holds the still-pending promise. -/
theorem sender_resolved_cex :
    (createUnsignedUserOp sampleEnv sampleCfg State.fresh [sampleInfo] none).1.toOption =
        some sampleOpFresh ∧
      sampleOpFresh.sender ≠
        AsyncVal.val (factoryAddressValue sampleEnv sampleCfg) := by
  exact ⟨by rfl, by decide⟩

/-- C9 amended: in every successful single-transaction build, the sender
field is the unresolved promise returned by getAccountAddress; that promise
resolves to the counterfactual account address. -/
theorem sender_promise_spec (env : Env) (cfg : Config) (s : State)
    (info : TransactionDetailsForUserOp) (na : Option Nat) (op : UserOp)
    (hwf : WFState env cfg s)
    (hok : (createUnsignedUserOp env cfg s [info] na).1 = .ok op) :
    op.sender = AsyncVal.promise (factoryAddressValue env cfg) ∧
      op.sender.resolve = factoryAddressValue env cfg := by
  rw [createUnsignedUserOp_single env cfg s info na hwf] at hok
  injection hok with hop
  subst hop
  exact ⟨rfl, rfl⟩

set_option maxRecDepth 8000 in
/-- Witness for the amended C9 at the concrete fresh build. -/
theorem sender_promise_spec_witness :
    (sampleOpFresh.sender =
        AsyncVal.promise (factoryAddressValue sampleEnv sampleCfg) ∧
      sampleOpFresh.sender.resolve = factoryAddressValue sampleEnv sampleCfg) :=
  sender_promise_spec sampleEnv sampleCfg State.fresh sampleInfo none sampleOpFresh
    (by decide) (by rfl)

/-- C10: createUnsignedUserOp signals the batch-unsupported error exactly for
input lists of length above one; the empty list passes that guard and the
build instead fails while dereferencing the missing first element. -/
theorem batch_error_iff (env : Env) (cfg : Config) (s : State) (na : Option Nat) :
    (∀ infos, ((createUnsignedUserOp env cfg s infos na).1 = .error .batchNotSupported ↔
        infos.length > 1)) ∧
      (createUnsignedUserOp env cfg s [] na).1 = .error .undefinedFirstElement := by
  constructor
  · intro infos
    constructor
    · intro he
      rcases infos with _ | ⟨i, rest⟩
      · simp [createUnsignedUserOp] at he
      · rcases rest with _ | ⟨j, rest2⟩
        · exact absurd he (createUnsignedUserOp_single_ne_error env cfg s i na _)
        · simp [List.length_cons]
    · intro hl
      unfold createUnsignedUserOp
      rw [if_pos hl]
  · simp [createUnsignedUserOp]

/-- Witness for C10: a concrete batch of length 2 yields the batch error. -/
theorem batch_error_iff_witness :
    (createUnsignedUserOp sampleEnv sampleCfg State.fresh
        [sampleInfoGas, sampleInfoGas] none).1 = .error .batchNotSupported :=
  ((batch_error_iff sampleEnv sampleCfg State.fresh none).1
    [sampleInfoGas, sampleInfoGas]).mpr (by decide)

end BiconomySmartAccountV2
